import Mathlib

/-!
Shallow embedding of `src/main.py` (images2pptx), the pipeline that turns a
folder of images into a slide deck with OCR text.

Modelling conventions:
* Python strings are lists of code points (`List Char`); `str.lower()` is
  `List.map Char.toLower`, `endswith`/`startswith` are list suffix/start tests,
  and Python `sorted` on strings is a sort under the lexicographic code-point
  order on `List Char` (the same total order, hence the same sorted result).
* Python floats are rationals (`ℚ`); every arithmetic step the claims touch is
  exact in binary floating point at the witnesses used below.
* YAML scalar values are `PVal`: `num q` stands for any value Python
  `float()` accepts (ints, floats, booleans, numeric strings are not
  distinguished from numbers by the validator, so numeric strings are folded
  into `num`); `str s` is a non-numeric string; `other` is any other value
  (`None`, mappings, ...). `float()` applied to a `str` value is delegated to
  the parameter `floatOfStr` so no Python string-to-float parser is modelled.
* Filesystem and library effects are an explicit `Env`: the `os.listdir`
  result, the outcome of `PIL.Image.open` + `pytesseract.image_to_string`
  per path, the success of `add_picture` per path, and the success of
  directory creation and of `presentation.save`.
* `logging.error(...)` followed by `sys.exit(1)` is an `Except` error or an
  output record with `exit_code = 1`.  The `{e}` exception text that Python
  interpolates into some log lines is omitted from the modelled messages, and
  the quote characters around interpolated values are written as `\x27`.
-/

namespace Images2Pptx

/-- A Python string, modelled as its list of code points. -/
abbrev Str := List Char

/-- Python `s.lower()` (used at src/main.py lines 148 and 197); Lean
`Char.toLower` performs the same ASCII case mapping. -/
def pyLower (s : Str) : Str := s.map Char.toLower

/-- Python `s.endswith(t)` (src/main.py lines 83 and 197). -/
def pyEndsWith (s t : Str) : Bool := t.isSuffixOf s

/-- Python `s.startswith(t)` (src/main.py line 118). -/
def pyStartsWith (s t : Str) : Bool := t.isPrefixOf s

/-- Python `os.path.join(a, b)` for the relative-name uses in the source
(lines 180 and 204): insert a single separator. -/
def pathJoin (a b : Str) : Str := a ++ ('/' :: b)

/-- A YAML scalar value as seen by the validator: `num q` is any value that
Python `float()` accepts, `str s` a non-numeric string, `other` anything
else (`None`, lists, mappings, booleans treated as non-numeric, ...). -/
inductive PVal where
  | num (q : ℚ)
  | str (s : Str)
  | other
  deriving DecidableEq, Repr

/-- Python `float(v)` on a config value (src/main.py line 107): `some`
is a successful coercion, `none` a `TypeError`/`ValueError`.  `floatOfStr`
models `float()` applied to a string. -/
def PVal.float? (floatOfStr : Str → Option ℚ) : PVal → Option ℚ
  | .num q => some q
  | .str s => floatOfStr s
  | .other => none

/-- The value of the top-level `extensions` key when present: either an
actual YAML list or some non-list value (rejected by the validator). -/
inductive ExtsVal where
  | list (l : List PVal)
  | nonList
  deriving DecidableEq, Repr

/-- The `paths` section of config.yaml (keys may be absent). -/
structure PathsCfg where
  images_folder : Option Str
  output_folder : Option Str
  output_filename : Option PVal
  deriving DecidableEq, Repr

/-- The `presentation` section of config.yaml (keys may be absent). -/
structure PresentationCfg where
  textbox_left_inches : Option PVal
  textbox_top_inches : Option PVal
  textbox_width_inches : Option PVal
  textbox_height_inches : Option PVal
  image_left_inches : Option PVal
  image_top_inches : Option PVal
  image_scale_percent : Option PVal
  text_font_size : Option PVal
  slide_size_option : Option PVal
  deriving DecidableEq, Repr

/-- A parsed config.yaml: the three keys the program reads (each possibly
absent). -/
structure Config where
  paths : Option PathsCfg
  presentation : Option PresentationCfg
  extensions : Option ExtsVal
  deriving DecidableEq, Repr

/-- The `size_map` dictionary (src/main.py lines 150-153). -/
def size_map (s : Str) : Option (ℚ × ℚ) :=
  if s = ("standard").data then some (10.0, 7.5)
  else if s = ("widescreen").data then some (13.3333, 7.5)
  else none

/-- Slide-size resolution (src/main.py lines 147-158): lower-case the
configured option (defaulting to `widescreen` when the key is absent), fall
back to widescreen with a logged warning when the result is not a key of
`size_map`.  Returns the `(width, height)` pair and the warning lines
logged. -/
def resolveSlideSize (opt : Option Str) : (ℚ × ℚ) × List Str :=
  let slide_size_option := pyLower (opt.getD ("widescreen").data)
  match size_map slide_size_option with
  | some wh => (wh, [])
  | none =>
      ((13.3333, 7.5),
       [("Invalid slide_size_option \x27").data ++ slide_size_option ++
        ("\x27 provided. Defaulting to \x27widescreen\x27.").data])

/-- Scaled placement geometry for one image (src/main.py lines 223-229):
fixed 96-DPI assumption, both dimensions multiplied by the same
`image_scale_percent / 100` factor. -/
def scaledSize (orig_width_px orig_height_px : ℕ) (image_scale_percent : ℚ) :
    ℚ × ℚ :=
  let dpi_assumption : ℚ := 96.0
  let base_width_in := (orig_width_px : ℚ) / dpi_assumption
  let base_height_in := (orig_height_px : ℚ) / dpi_assumption
  let scale_factor := image_scale_percent / 100.0
  (base_width_in * scale_factor, base_height_in * scale_factor)

/-- The extension filter of src/main.py line 197:
`any(f.lower().endswith(ext) for ext in allowed_extensions)`.  Note that
only the filename is lower-cased; each `ext` is compared as configured. -/
def matchesExt (allowed_extensions : List Str) (f : Str) : Bool :=
  allowed_extensions.any (fun ext => pyEndsWith (pyLower f) ext)

/-- Candidate resolution (src/main.py lines 188-198): sort the directory
listing, then keep the names passing the extension filter.  `sorted` is
modelled by insertion sort under the lexicographic code-point order. -/
def image_files (all_files : List Str) (allowed_extensions : List Str) :
    List Str :=
  (List.insertionSort (· ≤ ·) all_files).filter (matchesExt allowed_extensions)

/-- The data the try-block of src/main.py lines 208-214 extracts from one
image file: `PIL.Image.open`, `seek(0)`, `pytesseract.image_to_string`, and
`img.size`.  The OCR output is a field because it is a deterministic
function of the bytes stored at the path. -/
structure DecodedImage where
  width_px : ℕ
  height_px : ℕ
  extracted_text : Str
  deriving DecidableEq, Repr

/-- The filesystem and library effects of one run, fixed up front:
* `listing`: the result of `os.listdir(images_folder)` (line 190), `none`
  modelling an `OSError`;
* `decode`: per path, the outcome of the open/OCR try-block of lines
  208-217 (`none` models an `OSError` caught there);
* `embedOk`: per path, whether `add_picture` (lines 232-242) succeeds;
* `mkdirsOk`: whether the output folder exists or `os.makedirs` (lines
  170-177) succeeds;
* `saveOk`: whether `presentation.save` (lines 260-265) succeeds. -/
structure Env where
  listing : Option (List Str)
  decode : Str → Option DecodedImage
  embedOk : Str → Bool
  mkdirsOk : Bool
  saveOk : Bool

/-- A picture placed on a slide (`add_picture`, lines 233-239): position and
size in inches. -/
structure Picture where
  left : ℚ
  top : ℚ
  width : ℚ
  height : ℚ
  deriving DecidableEq, Repr

/-- A text box placed on a slide (lines 245-257): rectangle in inches, its
full text, and the uniform font size applied to every run. -/
structure TextBox where
  left : ℚ
  top : ℚ
  width : ℚ
  height : ℚ
  text : Str
  font_size : ℚ
  deriving DecidableEq, Repr

/-- One slide of the produced document.  `source_image` is the filename the
loop iteration was processing; the shapes are `none` exactly when the
iteration bailed out (`continue`) after the slide had been added. -/
structure Slide where
  source_image : Str
  picture : Option Picture
  textbox : Option TextBox
  deriving DecidableEq, Repr

/-- The in-memory presentation: canvas size (lines 185-186) and slides in
append order. -/
structure Document where
  slide_width : ℚ
  slide_height : ℚ
  slides : List Slide
  deriving DecidableEq, Repr

/-- Observable outcome of `create_powerpoint_slides`: the document persisted
by `presentation.save` (when reached and successful), the process exit code
(0 = the function returns normally, 1 = `sys.exit(1)`), and the warning and
error lines logged, in order. -/
structure RunOutput where
  saved_doc : Option Document
  exit_code : ℕ
  warnings : List Str
  errors : List Str
  deriving DecidableEq, Repr

/-- The eight numeric layout values extracted at src/main.py lines 137-145. -/
structure Geometry where
  textbox_left : ℚ
  textbox_top : ℚ
  textbox_width : ℚ
  textbox_height : ℚ
  image_left : ℚ
  image_top : ℚ
  image_scale_percent : ℚ
  text_font_size : ℚ
  deriving DecidableEq, Repr

/-- One iteration of the per-image loop (src/main.py lines 203-257).
Returns the slide appended to the document during the iteration (if any)
and the error lines logged.  A decode failure hits `continue` at line 217,
before `add_slide`, so no slide is appended; an embed failure hits
`continue` at line 242, after `add_slide` at line 221, so the already
appended slide stays, holding neither picture nor text box. -/
def processImage (env : Env) (g : Geometry) (images_folder : Str)
    (image_file : Str) : Option Slide × List Str :=
  let image_path := pathJoin images_folder image_file
  match env.decode image_path with
  | none =>
      (none,
       [("Could not open or read image \x27").data ++ image_path ++
        ("\x27.").data])
  | some img =>
      let sz := scaledSize img.width_px img.height_px g.image_scale_percent
      if env.embedOk image_path then
        (some { source_image := image_file,
                picture := some ⟨g.image_left, g.image_top, sz.1, sz.2⟩,
                textbox := some ⟨g.textbox_left, g.textbox_top,
                                 g.textbox_width, g.textbox_height,
                                 img.extracted_text, g.text_font_size⟩ },
         [])
      else
        (some { source_image := image_file, picture := none, textbox := none },
         [("Could not add image \x27").data ++ image_path ++
          ("\x27 to slide.").data])

/-- The whole per-image loop (src/main.py lines 203-257): slides appended to
the document in order, and error lines logged, in order. -/
def processAll (env : Env) (g : Geometry) (images_folder : Str) :
    List Str → List Slide × List Str
  | [] => ([], [])
  | f :: rest =>
      let head := processImage env g images_folder f
      let tail := processAll env g images_folder rest
      (head.1.toList ++ tail.1, head.2 ++ tail.2)

/-- The values src/main.py lines 131-161 extract from the config before any
filesystem work. -/
structure ResolvedConfig where
  images_folder : Str
  output_folder : Str
  output_filename : Str
  g : Geometry
  slide_size_option : Option Str
  allowed_extensions : List Str
  deriving DecidableEq, Repr

/-- `config.get("extensions", [".png"])` (src/main.py line 161) followed by
the uses at line 197: the default list applies only when the key is absent;
a present non-list value, or a list holding a non-string, would make the
generator expression raise (`none`). -/
def resolveExtensions (ev : Option ExtsVal) : Option (List Str) :=
  match ev with
  | none => some [(".png").data]
  | some (.list l) =>
      l.mapM (fun v => match v with | .str s => some s | _ => none)
  | some .nonList => none

/-- `presentation_cfg.get("slide_size_option", "widescreen")` at line 148
calls `.lower()` on the raw value, so a present non-string value raises an
uncaught `AttributeError` (`none`); absence keeps the key absent here, the
`"widescreen"` default being applied inside `resolveSlideSize`. -/
def resolveSizeOption (v : Option PVal) : Option (Option Str) :=
  match v with
  | none => some none
  | some (.str s) => some (some s)
  | some _ => none

/-- The config-reading prefix of `create_powerpoint_slides` (src/main.py
lines 131-161): dictionary lookups and `float(...)` coercions. `none`
models an uncaught `KeyError`/`ValueError`/`TypeError`/`AttributeError`
(unreachable for configs that passed `validate_config`). -/
def resolveConfig (floatOfStr : Str → Option ℚ) (config : Config) :
    Option ResolvedConfig := do
  let paths ← config.paths
  let images_folder ← paths.images_folder
  let output_folder ← paths.output_folder
  let ofnV ← paths.output_filename
  let output_filename ← match ofnV with | .str s => some s | _ => none
  let pres ← config.presentation
  let textbox_left ← pres.textbox_left_inches >>= PVal.float? floatOfStr
  let textbox_top ← pres.textbox_top_inches >>= PVal.float? floatOfStr
  let textbox_width ← pres.textbox_width_inches >>= PVal.float? floatOfStr
  let textbox_height ← pres.textbox_height_inches >>= PVal.float? floatOfStr
  let image_left ← pres.image_left_inches >>= PVal.float? floatOfStr
  let image_top ← pres.image_top_inches >>= PVal.float? floatOfStr
  let image_scale_percent ← pres.image_scale_percent >>= PVal.float? floatOfStr
  let text_font_size ← pres.text_font_size >>= PVal.float? floatOfStr
  let slide_size_option ← resolveSizeOption pres.slide_size_option
  let allowed_extensions ← resolveExtensions config.extensions
  pure { images_folder := images_folder,
         output_folder := output_folder,
         output_filename := output_filename,
         g := { textbox_left := textbox_left, textbox_top := textbox_top,
                textbox_width := textbox_width,
                textbox_height := textbox_height,
                image_left := image_left, image_top := image_top,
                image_scale_percent := image_scale_percent,
                text_font_size := text_font_size },
         slide_size_option := slide_size_option,
         allowed_extensions := allowed_extensions }

/-- Warning logged at src/main.py line 201 when no file passes the filter. -/
def noValidFilesMsg : Str :=
  ("No valid image files found in the specified folder.").data

/-- Error logged at line 176 before `sys.exit(1)` when the output folder
cannot be created (exception text omitted). -/
def mkdirsErrMsg (output_folder : Str) : Str :=
  ("Failed to create output folder \x27").data ++ output_folder ++
  ("\x27.").data

/-- Error logged at line 192 before `sys.exit(1)` when `os.listdir` fails
(exception text omitted). -/
def listingErrMsg (images_folder : Str) : Str :=
  ("Error reading images folder \x27").data ++ images_folder ++
  ("\x27.").data

/-- Error logged at line 264 before `sys.exit(1)` when `presentation.save`
fails (exception text omitted). -/
def saveErrMsg (full_output_path : Str) : Str :=
  ("Failed to save PowerPoint to \x27").data ++ full_output_path ++
  ("\x27.").data

/-- The effectful rest of `create_powerpoint_slides` (src/main.py lines
147-265) on already-extracted config values: resolve the slide size, ensure
the output folder, list the images folder, filter and sort, loop over the
candidates, save. -/
def runPipeline (env : Env) (rc : ResolvedConfig) : RunOutput :=
  let size := resolveSlideSize rc.slide_size_option
  let size_warnings := size.2
  if env.mkdirsOk = false then
    { saved_doc := none, exit_code := 1, warnings := size_warnings,
      errors := [mkdirsErrMsg rc.output_folder] }
  else
    match env.listing with
    | none =>
        { saved_doc := none, exit_code := 1, warnings := size_warnings,
          errors := [listingErrMsg rc.images_folder] }
    | some all_files =>
        let files := image_files all_files rc.allowed_extensions
        let empty_warnings := if files.isEmpty then [noValidFilesMsg] else []
        let processed := processAll env rc.g rc.images_folder files
        let doc : Document :=
          { slide_width := size.1.1, slide_height := size.1.2,
            slides := processed.1 }
        if env.saveOk then
          { saved_doc := some doc, exit_code := 0,
            warnings := size_warnings ++ empty_warnings,
            errors := processed.2 }
        else
          { saved_doc := none, exit_code := 1,
            warnings := size_warnings ++ empty_warnings,
            errors := processed.2 ++
              [saveErrMsg (pathJoin rc.output_folder rc.output_filename)] }

/-- `create_powerpoint_slides(config)` (src/main.py lines 123-265): extract
the config values, then run the pipeline.  `none` models an uncaught Python
exception during extraction. -/
def create_powerpoint_slides (env : Env) (floatOfStr : Str → Option ℚ)
    (config : Config) : Option RunOutput :=
  (resolveConfig floatOfStr config).map (runPipeline env)

/-- One turn of the loop at src/main.py lines 102-110: the key must be
present and `float(...)`-coercible. -/
def checkPresentationKey (floatOfStr : Str → Option ℚ) (key : Str)
    (v : Option PVal) : Except Str Unit :=
  match v with
  | none =>
      .error (("Missing \x27").data ++ key ++
              ("\x27 under \x27presentation\x27 in config.yaml.").data)
  | some pv =>
      match pv.float? floatOfStr with
      | some _ => .ok ()
      | none =>
          .error (("\x27").data ++ key ++
                  ("\x27 under \x27presentation\x27 must be a numerical value.").data)

/-- The loop at src/main.py lines 102-110 over the eight required
`presentation` keys, in source order. -/
def checkPresentationKeys (floatOfStr : Str → Option ℚ)
    (pres : PresentationCfg) : Except Str Unit := do
  checkPresentationKey floatOfStr ("textbox_left_inches").data
    pres.textbox_left_inches
  checkPresentationKey floatOfStr ("textbox_top_inches").data
    pres.textbox_top_inches
  checkPresentationKey floatOfStr ("textbox_width_inches").data
    pres.textbox_width_inches
  checkPresentationKey floatOfStr ("textbox_height_inches").data
    pres.textbox_height_inches
  checkPresentationKey floatOfStr ("image_left_inches").data
    pres.image_left_inches
  checkPresentationKey floatOfStr ("image_top_inches").data
    pres.image_top_inches
  checkPresentationKey floatOfStr ("image_scale_percent").data
    pres.image_scale_percent
  checkPresentationKey floatOfStr ("text_font_size").data
    pres.text_font_size

/-- The loop at src/main.py lines 117-120: every element of `extensions`
must be a string starting with a dot (the repr of a non-string offender is
omitted from the message). -/
def checkExtensionList : List PVal → Except Str Unit
  | [] => .ok ()
  | v :: rest =>
      match v with
      | .str s =>
          if pyStartsWith s (".").data then checkExtensionList rest
          else
            .error (("Invalid extension \x27").data ++ s ++
              ("\x27 in \x27extensions\x27; must be a string like \x27.png\x27.").data)
      | _ =>
          .error
            ("Invalid extension in \x27extensions\x27; must be a string like \x27.png\x27.").data

/-- Lines 113-120: `extensions`, when present, must be a list of dot-led
strings. -/
def checkExtensionsField : Option ExtsVal → Except Str Unit
  | none => .ok ()
  | some (.list l) => checkExtensionList l
  | some .nonList =>
      .error
        ("\x27extensions\x27 in config.yaml should be a list of file extensions.").data

/-- `validate_config(config)` (src/main.py lines 53-120), with
`logging.error(msg); sys.exit(1)` modelled as `Except.error msg`.  Checks
run in source order: the two sections, the three `paths` keys, the
images-folder directory test, the `.pptx` filename test, the eight numeric
`presentation` keys, the optional `extensions` list. -/
def validate_config (floatOfStr : Str → Option ℚ) (isDir : Str → Bool)
    (config : Config) : Except Str Unit :=
  match config.paths with
  | none => .error ("Missing \x27paths\x27 section in config.yaml.").data
  | some paths =>
    match config.presentation with
    | none =>
        .error ("Missing \x27presentation\x27 section in config.yaml.").data
    | some pres =>
      match paths.images_folder with
      | none =>
          .error
            ("Missing \x27images_folder\x27 under \x27paths\x27 in config.yaml.").data
      | some images_folder =>
        match paths.output_folder with
        | none =>
            .error
              ("Missing \x27output_folder\x27 under \x27paths\x27 in config.yaml.").data
        | some _ =>
          match paths.output_filename with
          | none =>
              .error
                ("Missing \x27output_filename\x27 under \x27paths\x27 in config.yaml.").data
          | some ofn =>
            if isDir images_folder = false then
              .error (("Images folder \x27").data ++ images_folder ++
                      ("\x27 does not exist or is not a directory.").data)
            else
              match ofn with
              | .str s =>
                if pyEndsWith s (".pptx").data = false then
                  .error (("Output filename \x27").data ++ s ++
                          ("\x27 must be a string ending with .pptx.").data)
                else do
                  checkPresentationKeys floatOfStr pres
                  checkExtensionsField config.extensions
              | _ =>
                  .error
                    ("Output filename must be a string ending with .pptx.").data

/-- Outcome of `main` (src/main.py lines 268-272) after the config has been
loaded: either validation rejected it (exit 1, `create_powerpoint_slides`
never invoked) or processing ran. -/
inductive MainResult where
  | configRejected (msg : Str)
  | processed (r : Option RunOutput)
  deriving DecidableEq, Repr

/-- `main` after `load_config` (src/main.py lines 271-272):
`validate_config` gates `create_powerpoint_slides`. -/
def mainRun (env : Env) (floatOfStr : Str → Option ℚ) (isDir : Str → Bool)
    (config : Config) : MainResult :=
  match validate_config floatOfStr isDir config with
  | .error e => .configRejected e
  | .ok _ => .processed (create_powerpoint_slides env floatOfStr config)

/-- A fully valid `paths` section used by the concrete runs below. -/
def demoPaths : PathsCfg :=
  { images_folder := some ("imgs").data,
    output_folder := some ("out").data,
    output_filename := some (.str ("deck.pptx").data) }

/-- A fully valid `presentation` section (no `slide_size_option`). -/
def demoPresentation : PresentationCfg :=
  { textbox_left_inches := some (.num 1),
    textbox_top_inches := some (.num 6),
    textbox_width_inches := some (.num 8),
    textbox_height_inches := some (.num 1),
    image_left_inches := some (.num 1),
    image_top_inches := some (.num 1),
    image_scale_percent := some (.num 50),
    text_font_size := some (.num 14),
    slide_size_option := none }

/-- A fully valid config with no `extensions` key. -/
def demoConfig : Config :=
  { paths := some demoPaths,
    presentation := some demoPresentation,
    extensions := none }

/-- Environment whose single image decodes fine but cannot be embedded. -/
def embedFailEnv : Env :=
  { listing := some [("a.png").data],
    decode := fun _ => some { width_px := 96, height_px := 96,
                              extracted_text := ("hello").data },
    embedOk := fun _ => false,
    mkdirsOk := true,
    saveOk := true }

/-- Environment with an empty images folder and all effects succeeding. -/
def emptyFolderEnv : Env :=
  { listing := some [],
    decode := fun _ => none,
    embedOk := fun _ => true,
    mkdirsOk := true,
    saveOk := true }

/-- The document produced by a run over an empty folder. -/
def emptyDoc : Document :=
  { slide_width := 13.3333, slide_height := 7.5, slides := [] }

/-- The full outcome of a run over an empty folder. -/
def emptyRun : RunOutput :=
  { saved_doc := some emptyDoc, exit_code := 0,
    warnings := [noValidFilesMsg], errors := [] }

/-- Slide count of a pipeline outcome: `some n` when a document was saved. -/
def slideCountOf (r : Option RunOutput) : Option ℕ :=
  r.bind (fun x => x.saved_doc.map (fun d => d.slides.length))

lemma mem_image_files (all_files allowed_extensions : List Str) (f : Str) :
    f ∈ image_files all_files allowed_extensions ↔
      f ∈ all_files ∧ matchesExt allowed_extensions f = true := by
  unfold image_files
  rw [List.mem_filter, (List.perm_insertionSort (· ≤ ·) all_files).mem_iff]

lemma image_files_sorted (all_files allowed_extensions : List Str) :
    List.Sorted (· ≤ ·) (image_files all_files allowed_extensions) :=
  (List.sorted_insertionSort (· ≤ ·) all_files).filter _

lemma processAll_map_source (env : Env) (g : Geometry) (folder : Str) :
    ∀ files : List Str,
      (processAll env g folder files).1.map Slide.source_image =
        files.filter (fun f => (env.decode (pathJoin folder f)).isSome)
  | [] => rfl
  | f :: rest => by
      have ih := processAll_map_source env g folder rest
      unfold processAll processImage
      cases hd : env.decode (pathJoin folder f) with
      | none => simpa [hd] using ih
      | some img =>
          cases he : env.embedOk (pathJoin folder f) <;>
            simpa [hd, he] using ih

lemma processAll_length (env : Env) (g : Geometry) (folder : Str)
    (files : List Str) :
    (processAll env g folder files).1.length =
      (files.filter (fun f => (env.decode (pathJoin folder f)).isSome)).length := by
  rw [← processAll_map_source env g folder files, List.length_map]

/-- C1, counterexample: the claim says the match is case-insensitive in the
configured extension as well, so that extension `.PNG` matches file `a.png`
just as `.png` matches `a.PNG`.  In the code only the filename is
lower-cased (line 197), so `.PNG` fails to match `a.png` while `.png` does
match `a.PNG`. -/
theorem c1_extension_case_counterexample :
    matchesExt [(".PNG").data] ("a.png").data = false ∧
    matchesExt [(".png").data] ("a.PNG").data = true := by decide

/-- C1, amended: a filename is a candidate iff its lower-cased form ends
with one of the configured extension strings exactly as written; altering
the case of the filename never changes the result (the extension strings
are compared verbatim, so their case does matter). -/
theorem c1_match_amended :
    (∀ (allowed_extensions all_files : List Str) (f : Str),
        f ∈ image_files all_files allowed_extensions ↔
          f ∈ all_files ∧
            allowed_extensions.any
              (fun ext => pyEndsWith (pyLower f) ext) = true) ∧
    (∀ (allowed_extensions : List Str) (f g : Str), pyLower f = pyLower g →
        matchesExt allowed_extensions f = matchesExt allowed_extensions g) := by
  constructor
  · intro exts all f
    exact mem_image_files all exts f
  · intro exts f g h
    unfold matchesExt
    rw [h]

/-- C1, witness for the amended statement at concrete inputs. -/
theorem c1_match_amended_witness :
    matchesExt [(".png").data] ("a.PNG").data =
      matchesExt [(".png").data] ("A.png").data :=
  c1_match_amended.2 [(".png").data] ("a.PNG").data ("A.png").data (by decide)

/-- C3, counterexample: with `slide_size_option` absent the resolved size is
the widescreen default but the warning list is empty — the claim requires a
warning to be logged in this case, yet line 148 defaults to `"widescreen"`
before the membership test at line 155, which therefore passes. -/
theorem c3_absent_option_counterexample :
    resolveSlideSize none = ((13.3333, 7.5), []) := by rfl

/-- C3, amended: a present string value whose lower-cased form is neither
`standard` nor `widescreen` resolves to the widescreen default `(13.3333,
7.5)` with a warning logged; an absent key resolves to the same default
silently. -/
theorem c3_slide_size_amended :
    (∀ s : Str, pyLower s ≠ ("standard").data →
        pyLower s ≠ ("widescreen").data →
        resolveSlideSize (some s) =
          ((13.3333, 7.5),
           [("Invalid slide_size_option \x27").data ++ pyLower s ++
            ("\x27 provided. Defaulting to \x27widescreen\x27.").data])) ∧
    (resolveSlideSize none).1 = (13.3333, 7.5) ∧
    (resolveSlideSize none).2 = [] := by
  refine ⟨?_, rfl, rfl⟩
  intro s h1 h2
  simp [resolveSlideSize, size_map, h1, h2]

/-- C3, witness for the amended statement at the spec example `"square"`. -/
theorem c3_slide_size_amended_witness :
    resolveSlideSize (some ("square").data) =
      ((13.3333, 7.5),
       [("Invalid slide_size_option \x27").data ++ pyLower ("square").data ++
        ("\x27 provided. Defaulting to \x27widescreen\x27.").data]) :=
  c3_slide_size_amended.1 ("square").data (by decide) (by decide)

/-- C4, confirmed: the placement size of a decoded image is
`(width_px / 96) * (image_scale_percent / 100)` by
`(height_px / 96) * (image_scale_percent / 100)` inches; a 960x480 image at
50 percent gives exactly 5.0 by 2.5 inches; and the aspect ratio is
preserved because both dimensions share the same scale factor. -/
theorem c4_scaled_geometry :
    (∀ (w h : ℕ) (pct : ℚ),
        scaledSize w h pct =
          ((w : ℚ) / 96 * (pct / 100), (h : ℚ) / 96 * (pct / 100))) ∧
    scaledSize 960 480 50 = (5, 5/2) ∧
    (∀ (w h : ℕ) (pct : ℚ), (h : ℚ) ≠ 0 → pct ≠ 0 →
        (scaledSize w h pct).1 / (scaledSize w h pct).2 = (w : ℚ) / (h : ℚ)) := by
  refine ⟨?_, ?_, ?_⟩
  · intro w h pct
    unfold scaledSize
    norm_num
  · unfold scaledSize
    norm_num
  · intro w h pct hh hp
    unfold scaledSize
    field_simp
    ring

/-- C4, witness: aspect-ratio preservation applied at the 960x480, 50
percent example. -/
theorem c4_scaled_geometry_witness :
    (scaledSize 960 480 50).1 / (scaledSize 960 480 50).2 =
      ((960 : ℕ) : ℚ) / ((480 : ℕ) : ℚ) :=
  c4_scaled_geometry.2.2 960 480 50 (by norm_num) (by norm_num)

/-- C2, counterexample: one image decodes and OCRs fine but embedding fails;
the claim says the saved document then contains no slide for it (zero
slides here), but `add_slide` at line 221 runs before `add_picture` at line
233, and the `continue` at line 242 does not remove the slide: the saved
document holds one blank slide. -/
theorem c2_embed_failure_counterexample :
    create_powerpoint_slides embedFailEnv (fun _ => none) demoConfig =
      some { saved_doc := some
               { slide_width := 13.3333, slide_height := 7.5,
                 slides := [{ source_image := ("a.png").data,
                              picture := none, textbox := none }] },
             exit_code := 0,
             warnings := [],
             errors := [("Could not add image \x27").data ++
               pathJoin ("imgs").data ("a.png").data ++
               ("\x27 to slide.").data] } := by rfl

/-- C2, amended: when embedding fails for an I/O reason the image is
skipped in the sense that neither its picture nor its text box is added,
but the blank slide appended before the embed attempt remains, so the
document slide count equals the number of images that decoded
successfully, not the number for which embedding also succeeded. -/
theorem c2_embed_failure_amended :
    (∀ (env : Env) (g : Geometry) (folder : Str) (files : List Str),
        (processAll env g folder files).1.length =
          (files.filter (fun f => (env.decode (pathJoin folder f)).isSome)).length) ∧
    (∀ (env : Env) (g : Geometry) (folder f : Str) (img : DecodedImage),
        env.decode (pathJoin folder f) = some img →
        env.embedOk (pathJoin folder f) = false →
        (processImage env g folder f).1 =
          some { source_image := f, picture := none, textbox := none }) := by
  constructor
  · exact processAll_length
  · intro env g folder f img hd he
    simp [processImage, hd, he]

/-- C2, witness for the amended statement at concrete inputs. -/
theorem c2_embed_failure_amended_witness :
    (processImage embedFailEnv ⟨1, 6, 8, 1, 1, 1, 50, 14⟩ ("imgs").data
        ("a.png").data).1 =
      some { source_image := ("a.png").data, picture := none,
             textbox := none } :=
  c2_embed_failure_amended.2 embedFailEnv ⟨1, 6, 8, 1, 1, 1, 50, 14⟩
    ("imgs").data ("a.png").data
    { width_px := 96, height_px := 96, extracted_text := ("hello").data }
    rfl rfl

/-- C6, confirmed: the candidate list is sorted lexicographically, holds
exactly the listing entries passing the extension filter, the slides of the
produced document follow that list in order (restricted to the images that
decoded), and the spec example folder resolves to exactly
`["a.png", "b.PNG"]`. -/
theorem c6_sorted_candidates_and_order :
    (∀ all_files allowed_extensions : List Str,
        List.Sorted (· ≤ ·) (image_files all_files allowed_extensions)) ∧
    (∀ (all_files allowed_extensions : List Str) (f : Str),
        f ∈ image_files all_files allowed_extensions ↔
          f ∈ all_files ∧ matchesExt allowed_extensions f = true) ∧
    (∀ (env : Env) (g : Geometry) (folder : Str) (files : List Str),
        (processAll env g folder files).1.map Slide.source_image =
          files.filter (fun f => (env.decode (pathJoin folder f)).isSome)) ∧
    (∀ (env : Env) (rc : ResolvedConfig) (all_files : List Str) (d : Document),
        env.listing = some all_files →
        (runPipeline env rc).saved_doc = some d →
        d.slides = (processAll env rc.g rc.images_folder
          (image_files all_files rc.allowed_extensions)).1) ∧
    image_files [("b.PNG").data, ("a.png").data, ("c.txt").data]
        [(".png").data] = [("a.png").data, ("b.PNG").data] := by
  refine ⟨image_files_sorted, mem_image_files, processAll_map_source, ?_, by decide⟩
  intro env rc all_files d hl hd
  cases hmk : env.mkdirsOk with
  | false => simp [runPipeline, hmk] at hd
  | true =>
    cases hs : env.saveOk with
    | false => simp [runPipeline, hmk, hl, hs] at hd
    | true =>
      simp [runPipeline, hmk, hl, hs] at hd
      rw [← hd]

/-- C6, witness for the document-order conjunct at a concrete run. -/
theorem c6_sorted_candidates_and_order_witness :
    emptyDoc.slides =
      (processAll emptyFolderEnv ⟨1, 6, 8, 1, 1, 1, 50, 14⟩ ("imgs").data
        (image_files [] [(".png").data])).1 :=
  c6_sorted_candidates_and_order.2.2.2.1 emptyFolderEnv
    { images_folder := ("imgs").data, output_folder := ("out").data,
      output_filename := ("deck.pptx").data,
      g := ⟨1, 6, 8, 1, 1, 1, 50, 14⟩, slide_size_option := none,
      allowed_extensions := [(".png").data] }
    [] emptyDoc rfl (by rfl)

/-- C7, confirmed: when no listed file passes the extension filter the run
is not an error — the "no valid image files" warning is logged, no
per-image processing happens (no slides, no per-image error lines), a
zero-slide document is saved, and the run exits with status 0 (assuming the
save itself succeeds). -/
theorem c7_zero_matches_ok (env : Env) (rc : ResolvedConfig)
    (all_files : List Str)
    (hl : env.listing = some all_files)
    (hempty : image_files all_files rc.allowed_extensions = [])
    (hmk : env.mkdirsOk = true) (hs : env.saveOk = true) :
    (runPipeline env rc).exit_code = 0 ∧
    noValidFilesMsg ∈ (runPipeline env rc).warnings ∧
    (runPipeline env rc).errors = [] ∧
    ∃ d, (runPipeline env rc).saved_doc = some d ∧ d.slides = [] := by
  simp [runPipeline, hl, hempty, hmk, hs, processAll]

/-- C7, witness at a concrete empty folder. -/
theorem c7_zero_matches_ok_witness :
    (runPipeline emptyFolderEnv
        { images_folder := ("imgs").data, output_folder := ("out").data,
          output_filename := ("deck.pptx").data,
          g := ⟨1, 6, 8, 1, 1, 1, 50, 14⟩, slide_size_option := none,
          allowed_extensions := [(".png").data] }).exit_code = 0 ∧
    noValidFilesMsg ∈ (runPipeline emptyFolderEnv
        { images_folder := ("imgs").data, output_folder := ("out").data,
          output_filename := ("deck.pptx").data,
          g := ⟨1, 6, 8, 1, 1, 1, 50, 14⟩, slide_size_option := none,
          allowed_extensions := [(".png").data] }).warnings ∧
    (runPipeline emptyFolderEnv
        { images_folder := ("imgs").data, output_folder := ("out").data,
          output_filename := ("deck.pptx").data,
          g := ⟨1, 6, 8, 1, 1, 1, 50, 14⟩, slide_size_option := none,
          allowed_extensions := [(".png").data] }).errors = [] ∧
    ∃ d, (runPipeline emptyFolderEnv
        { images_folder := ("imgs").data, output_folder := ("out").data,
          output_filename := ("deck.pptx").data,
          g := ⟨1, 6, 8, 1, 1, 1, 50, 14⟩, slide_size_option := none,
          allowed_extensions := [(".png").data] }).saved_doc = some d ∧
      d.slides = [] :=
  c7_zero_matches_ok emptyFolderEnv _ [] rfl (by decide) rfl rfl

lemma bind_ok_inv {ε α β : Type} (a : Except ε α) (b : α → Except ε β) (y : β)
    (h : (a >>= b) = .ok y) : ∃ x, a = .ok x ∧ b x = .ok y := by
  cases a with
  | error e => simp [Bind.bind, Except.bind] at h
  | ok x => exact ⟨x, rfl, by simpa [Bind.bind, Except.bind] using h⟩

lemma checkPresentationKey_ok (fS : Str → Option ℚ) (key : Str)
    (v : Option PVal) (h : checkPresentationKey fS key v = .ok ()) :
    v ≠ none := by
  intro hv
  subst hv
  simp [checkPresentationKey] at h

lemma checkPresentationKeys_ok (fS : Str → Option ℚ) (pres : PresentationCfg)
    (h : checkPresentationKeys fS pres = .ok ()) :
    pres.textbox_left_inches ≠ none ∧ pres.textbox_top_inches ≠ none ∧
    pres.textbox_width_inches ≠ none ∧ pres.textbox_height_inches ≠ none ∧
    pres.image_left_inches ≠ none ∧ pres.image_top_inches ≠ none ∧
    pres.image_scale_percent ≠ none ∧ pres.text_font_size ≠ none := by
  unfold checkPresentationKeys at h
  obtain ⟨x1, h1, h⟩ := bind_ok_inv _ _ _ h
  obtain ⟨x2, h2, h⟩ := bind_ok_inv _ _ _ h
  obtain ⟨x3, h3, h⟩ := bind_ok_inv _ _ _ h
  obtain ⟨x4, h4, h⟩ := bind_ok_inv _ _ _ h
  obtain ⟨x5, h5, h⟩ := bind_ok_inv _ _ _ h
  obtain ⟨x6, h6, h⟩ := bind_ok_inv _ _ _ h
  obtain ⟨x7, h7, h⟩ := bind_ok_inv _ _ _ h
  cases x1; cases x2; cases x3; cases x4; cases x5; cases x6; cases x7
  exact ⟨checkPresentationKey_ok _ _ _ h1, checkPresentationKey_ok _ _ _ h2,
         checkPresentationKey_ok _ _ _ h3, checkPresentationKey_ok _ _ _ h4,
         checkPresentationKey_ok _ _ _ h5, checkPresentationKey_ok _ _ _ h6,
         checkPresentationKey_ok _ _ _ h7, checkPresentationKey_ok _ _ _ h⟩

lemma validate_config_ok_shape (fS : Str → Option ℚ) (iD : Str → Bool)
    (cfg : Config) (h : validate_config fS iD cfg = .ok ()) :
    cfg.paths ≠ none ∧ cfg.presentation ≠ none ∧
    (∀ p, cfg.paths = some p →
        p.images_folder ≠ none ∧ p.output_folder ≠ none ∧
        p.output_filename ≠ none) ∧
    (∀ pr, cfg.presentation = some pr →
        pr.textbox_left_inches ≠ none ∧ pr.textbox_top_inches ≠ none ∧
        pr.textbox_width_inches ≠ none ∧ pr.textbox_height_inches ≠ none ∧
        pr.image_left_inches ≠ none ∧ pr.image_top_inches ≠ none ∧
        pr.image_scale_percent ≠ none ∧ pr.text_font_size ≠ none) := by
  unfold validate_config at h
  cases hp : cfg.paths with
  | none => simp only [hp] at h; simp at h
  | some paths =>
  simp only [hp] at h
  cases hpr : cfg.presentation with
  | none => simp only [hpr] at h; simp at h
  | some pres =>
  simp only [hpr] at h
  cases hif : paths.images_folder with
  | none => simp only [hif] at h; simp at h
  | some images_folder =>
  simp only [hif] at h
  cases hof : paths.output_folder with
  | none => simp only [hof] at h; simp at h
  | some output_folder =>
  simp only [hof] at h
  cases hon : paths.output_filename with
  | none => simp only [hon] at h; simp at h
  | some ofn =>
  simp only [hon] at h
  by_cases hdir : iD images_folder = false
  · rw [if_pos hdir] at h; simp at h
  · rw [if_neg hdir] at h
    cases ofn with
    | num q => simp only [] at h; simp at h
    | other => simp only [] at h; simp at h
    | str s =>
      simp only [] at h
      by_cases hpp : pyEndsWith s (".pptx").data = false
      · rw [if_pos hpp] at h; simp at h
      · rw [if_neg hpp] at h
        obtain ⟨x, hkeys, _⟩ := bind_ok_inv _ _ _ h
        cases x
        have hK := checkPresentationKeys_ok fS pres hkeys
        refine ⟨by simp [hp], by simp [hpr], ?_, ?_⟩
        · intro p hp2
          cases hp2
          exact ⟨by simp [hif], by simp [hof], by simp [hon]⟩
        · intro pr hpr2
          cases hpr2
          exact hK

/-- Some required configuration key, in the sense of the validator at
src/main.py lines 59-110, is absent: a top-level section, a key under
`paths`, or one of the eight numeric keys under `presentation`. -/
def missingRequiredKey (cfg : Config) : Prop :=
  cfg.paths = none ∨ cfg.presentation = none ∨
  (∃ p, cfg.paths = some p ∧
    (p.images_folder = none ∨ p.output_folder = none ∨
     p.output_filename = none)) ∨
  (∃ pr, cfg.presentation = some pr ∧
    (pr.textbox_left_inches = none ∨ pr.textbox_top_inches = none ∨
     pr.textbox_width_inches = none ∨ pr.textbox_height_inches = none ∨
     pr.image_left_inches = none ∨ pr.image_top_inches = none ∨
     pr.image_scale_percent = none ∨ pr.text_font_size = none))

/-- C5, confirmed: a configuration missing any required key is rejected by
`validate_config` (the process exits with a logged error), and
`create_powerpoint_slides` runs only when `validate_config` succeeded. -/
theorem c5_validation_gates_processing :
    (∀ (floatOfStr : Str → Option ℚ) (isDir : Str → Bool) (cfg : Config),
        missingRequiredKey cfg →
        ∃ e, validate_config floatOfStr isDir cfg = .error e) ∧
    (∀ (env : Env) (floatOfStr : Str → Option ℚ) (isDir : Str → Bool)
        (cfg : Config) (r : Option RunOutput),
        mainRun env floatOfStr isDir cfg = .processed r →
        validate_config floatOfStr isDir cfg = .ok ()) := by
  constructor
  · intro fS iD cfg hmiss
    cases hv : validate_config fS iD cfg with
    | error e => exact ⟨e, rfl⟩
    | ok u =>
      cases u
      exfalso
      obtain ⟨h1, h2, h3, h4⟩ := validate_config_ok_shape fS iD cfg hv
      rcases hmiss with h | h | ⟨p, hp, hcase⟩ | ⟨pr, hpr, hcase⟩
      · exact h1 h
      · exact h2 h
      · obtain ⟨a, b, c⟩ := h3 p hp
        rcases hcase with h | h | h
        exacts [a h, b h, c h]
      · obtain ⟨a1, a2, a3, a4, a5, a6, a7, a8⟩ := h4 pr hpr
        rcases hcase with h | h | h | h | h | h | h | h
        exacts [a1 h, a2 h, a3 h, a4 h, a5 h, a6 h, a7 h, a8 h]
  · intro env fS iD cfg r hm
    unfold mainRun at hm
    cases hv : validate_config fS iD cfg with
    | error e => simp only [hv] at hm; simp at hm
    | ok u => cases u; rfl

/-- C5, witness: a config with both sections absent is rejected, and a run
that reaches processing has a validated config. -/
theorem c5_validation_gates_processing_witness :
    (∃ e, validate_config (fun _ => none) (fun _ => true)
        { paths := none, presentation := none, extensions := none } =
          Except.error e) ∧
    validate_config (fun _ => none) (fun _ => true) demoConfig =
      Except.ok () :=
  ⟨c5_validation_gates_processing.1 (fun _ => none) (fun _ => true)
      { paths := none, presentation := none, extensions := none }
      (Or.inl rfl),
   c5_validation_gates_processing.2 emptyFolderEnv (fun _ => none)
      (fun _ => true) demoConfig
      (create_powerpoint_slides emptyFolderEnv (fun _ => none) demoConfig)
      rfl⟩

/-- C8, confirmed: the pipeline is a pure function of the configuration and
the environment (listing, image contents with their deterministic OCR
output, embed and save outcomes), so two runs on identical inputs produce
documents with the same slide count, same slide order, and identical text
boxes slide for slide. -/
theorem c8_deterministic (env1 env2 : Env) (f1 f2 : Str → Option ℚ)
    (cfg1 cfg2 : Config) (henv : env1 = env2) (hf : f1 = f2)
    (hcfg : cfg1 = cfg2) (r1 r2 : RunOutput) (d1 d2 : Document)
    (h1 : create_powerpoint_slides env1 f1 cfg1 = some r1)
    (h2 : create_powerpoint_slides env2 f2 cfg2 = some r2)
    (hd1 : r1.saved_doc = some d1) (hd2 : r2.saved_doc = some d2) :
    d1.slides.length = d2.slides.length ∧
    d1.slides.map Slide.source_image = d2.slides.map Slide.source_image ∧
    d1.slides.map Slide.textbox = d2.slides.map Slide.textbox := by
  subst henv hf hcfg
  rw [h1] at h2
  cases h2
  rw [hd1] at hd2
  cases hd2
  exact ⟨rfl, rfl, rfl⟩

/-- C8, witness: both runs instantiated with the same concrete inputs. -/
theorem c8_deterministic_witness :
    emptyDoc.slides.length = emptyDoc.slides.length ∧
    emptyDoc.slides.map Slide.source_image =
      emptyDoc.slides.map Slide.source_image ∧
    emptyDoc.slides.map Slide.textbox = emptyDoc.slides.map Slide.textbox :=
  c8_deterministic emptyFolderEnv emptyFolderEnv (fun _ => none)
    (fun _ => none) demoConfig demoConfig rfl rfl rfl emptyRun emptyRun
    emptyDoc emptyDoc (by rfl) (by rfl) rfl rfl

/-- `demoConfig` with an explicitly empty `extensions` list. -/
def emptyExtsConfig : Config :=
  { demoConfig with extensions := some (.list []) }

/-- `demoPresentation` with a negative `image_scale_percent`. -/
def negScalePresentation : PresentationCfg :=
  { demoPresentation with image_scale_percent := some (.num (-50)) }

/-- `demoConfig` with a negative `image_scale_percent`. -/
def negScaleConfig : Config :=
  { demoConfig with presentation := some negScalePresentation }

lemma matchesExt_nil (f : Str) : matchesExt [] f = false := rfl

lemma image_files_nil (all_files : List Str) : image_files all_files [] = [] := by
  simp [image_files, matchesExt]

/-- Environment with one matching image where everything succeeds. -/
def pngFolderEnv : Env :=
  { listing := some [("a.png").data],
    decode := fun _ => some { width_px := 96, height_px := 96,
                              extracted_text := ("hello").data },
    embedOk := fun _ => true,
    mkdirsOk := true,
    saveOk := true }

/-- C9, confirmed: an `extensions` key holding an empty list passes
validation, the empty list (not the `[".png"]` default) is used for
filtering, no filename matches it, and such a run saves a zero-slide
document; the default applies only when the key is absent. -/
theorem c9_empty_extensions :
    checkExtensionsField (some (.list [])) = Except.ok () ∧
    validate_config (fun _ => none) (fun _ => true) emptyExtsConfig =
      Except.ok () ∧
    resolveExtensions (some (.list [])) = some [] ∧
    resolveExtensions none = some [(".png").data] ∧
    (∀ f : Str, matchesExt [] f = false) ∧
    (∀ all_files : List Str, image_files all_files [] = []) ∧
    (∀ (env : Env) (rc : ResolvedConfig) (all_files : List Str),
        env.listing = some all_files → env.mkdirsOk = true →
        env.saveOk = true → rc.allowed_extensions = [] →
        ∃ d, (runPipeline env rc).saved_doc = some d ∧ d.slides = []) := by
  refine ⟨rfl, rfl, rfl, rfl, matchesExt_nil, image_files_nil, ?_⟩
  intro env rc all_files hl hmk hs hexts
  simp [runPipeline, hl, hmk, hs, hexts, image_files_nil, processAll]

/-- C9, witness: a folder with a `.png` file still yields a zero-slide
document when the configured extension list is empty. -/
theorem c9_empty_extensions_witness :
    ∃ d, (runPipeline pngFolderEnv
        { images_folder := ("imgs").data, output_folder := ("out").data,
          output_filename := ("deck.pptx").data,
          g := ⟨1, 6, 8, 1, 1, 1, 50, 14⟩, slide_size_option := none,
          allowed_extensions := [] }).saved_doc = some d ∧ d.slides = [] :=
  c9_empty_extensions.2.2.2.2.2.2 pngFolderEnv
    { images_folder := ("imgs").data, output_folder := ("out").data,
      output_filename := ("deck.pptx").data,
      g := ⟨1, 6, 8, 1, 1, 1, 50, 14⟩, slide_size_option := none,
      allowed_extensions := [] }
    [("a.png").data] rfl rfl rfl rfl

/-- C10, confirmed: the validator accepts any `float()`-coercible value for
the eight `presentation` fields — no range check — so a zero or negative
`image_scale_percent` passes validation and flows into the geometry,
yielding non-positive scaled width and height. -/
theorem c10_no_range_check :
    (∀ (fS : Str → Option ℚ) (key : Str) (q : ℚ),
        checkPresentationKey fS key (some (.num q)) = Except.ok ()) ∧
    validate_config (fun _ => none) (fun _ => true) negScaleConfig =
      Except.ok () ∧
    (∀ (w h : ℕ) (q : ℚ), q ≤ 0 →
        (scaledSize w h q).1 ≤ 0 ∧ (scaledSize w h q).2 ≤ 0) := by
  refine ⟨fun fS key q => rfl, rfl, ?_⟩
  intro w h q hq
  unfold scaledSize
  have hw : (0 : ℚ) ≤ (w : ℚ) / 96.0 := by positivity
  have hh : (0 : ℚ) ≤ (h : ℚ) / 96.0 := by positivity
  have hs : q / 100.0 ≤ 0 := by
    have : (100.0 : ℚ) = 100 := by norm_num
    rw [this]
    linarith
  constructor
  · exact mul_nonpos_iff.mpr (Or.inl ⟨hw, hs⟩)
  · exact mul_nonpos_iff.mpr (Or.inl ⟨hh, hs⟩)

/-- C10, witness: a 960x480 image at scale percent -50 gets non-positive
placement dimensions. -/
theorem c10_no_range_check_witness :
    (scaledSize 960 480 (-50)).1 ≤ 0 ∧ (scaledSize 960 480 (-50)).2 ≤ 0 :=
  c10_no_range_check.2.2 960 480 (-50) (by norm_num)

end Images2Pptx
